import Mathlib

/-!
Verification of the studio voice-platform repository.

This file gives a shallow embedding, in Lean, of the parts of the
TypeScript source that the testable properties of the specification talk
about: the phone-number normalization used by the telephony
provisioning route, share-code generation and the agent-config
create/update logic, the OAuth state-token issuance/validation of the
Google OAuth flow, the SIP teardown sequencing of the telephony delete
route, the knowledge-base document delete route, the ownership checks
of the agent CRUD routes, and the STT/TTS provider selection of the
voice-agent process.  Each definition is translated from the
corresponding source function; theorems at the end settle the
claims of the specification about them.
-/

/- ===================================================================
   Section 1: phone-number normalization
   Source: the POST /api/agents/:id/telephony handler defines

     const normalizePhone = (num: string): string => {
       return num
         .replace(/^\+91/, "")
         .replace(/^91/, "")
         .replace(/^0/, "")
         .replace(/[\s\-\(\)]/g, "");
     };

   Each of the first three replaces is anchored and so removes at most
   one occurrence of its pattern at the start of the current string;
   the replaces are applied in sequence, each to the result of the
   previous one.  The final replace removes every whitespace, dash or
   parenthesis character.  Strings are modelled as lists of
   characters.
   =================================================================== -/

/-- Bool test that the first list is an initial segment of the second
(models an anchored regex match at the start of the string). -/
def startsWithChars : List Char → List Char → Bool
  | [], _ => true
  | _ :: _, [] => false
  | c :: cs, d :: ds => c == d && startsWithChars cs ds

/-- One anchored replace with the empty string: if the string starts
with the pattern, remove that one occurrence, else leave the string
unchanged.  Models a JS replace with the regex anchored by a caret. -/
def stripPrefixOnce (p s : List Char) : List Char :=
  if startsWithChars p s then s.drop p.length else s

/-- The character class of the final global replace of normalizePhone:
whitespace, dash and parentheses.  (The JS class \s also matches some
rarer Unicode space characters; none of the claims involve them.) -/
def isStrippedChar (c : Char) : Bool :=
  c == ' ' || c == '\t' || c == '\n' || c == '\r' || c == '\x0b' || c == '\x0c' ||
    c == '-' || c == '(' || c == ')'

/-- normalizePhone from the POST /api/agents/:id/telephony handler. -/
def normalizePhone (num : List Char) : List Char :=
  (stripPrefixOnce ['0']
      (stripPrefixOnce ['9', '1']
        (stripPrefixOnce ['+', '9', '1'] num))).filter
    (fun c => !(isStrippedChar c))

/-- The form +91XXXXXXXXXX of a number X. -/
def plus91Form (X : List Char) : List Char := ['+', '9', '1'] ++ X

/-- The form 91XXXXXXXXXX of a number X. -/
def bare91Form (X : List Char) : List Char := ['9', '1'] ++ X

/-- The form 0XXXXXXXXXX of a number X. -/
def zeroForm (X : List Char) : List Char := ['0'] ++ X

/-- The ten decimal digit characters. -/
def digitChars : List Char :=
  ['0', '1', '2', '3', '4', '5', '6', '7', '8', '9']

theorem startsWithChars_append (p s : List Char) :
    startsWithChars p (p ++ s) = true := by
  induction p with
  | nil => rfl
  | cons c cs ih => simp [startsWithChars, ih]

theorem stripPrefixOnce_append (p s : List Char) :
    stripPrefixOnce p (p ++ s) = s := by
  simp [stripPrefixOnce, startsWithChars_append, List.drop_left]

theorem stripPrefixOnce_of_not_starts (p s : List Char)
    (h : startsWithChars p s = false) : stripPrefixOnce p s = s := by
  simp [stripPrefixOnce, h]

theorem digit_not_stripped (c : Char) (h : c ∈ digitChars) :
    isStrippedChar c = false := by
  simp [digitChars] at h
  rcases h with rfl | rfl | rfl | rfl | rfl | rfl | rfl | rfl | rfl | rfl <;> rfl

theorem filter_stripped_of_digits (X : List Char)
    (hd : ∀ c ∈ X, c ∈ digitChars) :
    X.filter (fun c => !(isStrippedChar c)) = X := by
  rw [List.filter_eq_self]
  intro a ha
  simp [digit_not_stripped a (hd a ha)]

theorem not_starts_plus91_of_digits (X : List Char) (hne : X ≠ [])
    (hd : ∀ c ∈ X, c ∈ digitChars) :
    startsWithChars ['+', '9', '1'] X = false := by
  cases X with
  | nil => exact absurd rfl hne
  | cons c rest =>
    have hc := hd c (List.mem_cons_self c rest)
    simp [digitChars] at hc
    rcases hc with rfl | rfl | rfl | rfl | rfl | rfl | rfl | rfl | rfl | rfl <;> rfl

/-- Claim C1, amended.  For a ten-digit number X whose digits do not
begin with 0 and do not begin with 91, the four request forms
+91XXXXXXXXXX, 91XXXXXXXXXX, 0XXXXXXXXXX and XXXXXXXXXX all normalize
to X, so any two of them compare as equal.  (Without those two side
conditions the chained anchored replaces strip a second prefix out of
the digits themselves; see the counterexample.) -/
theorem normalizePhone_consistent_forms (X : List Char)
    (hlen : X.length = 10)
    (hdig : ∀ c ∈ X, c ∈ digitChars)
    (h0 : startsWithChars ['0'] X = false)
    (h91 : startsWithChars ['9', '1'] X = false) :
    normalizePhone (plus91Form X) = X ∧ normalizePhone (bare91Form X) = X ∧
      normalizePhone (zeroForm X) = X ∧ normalizePhone X = X := by
  have hne : X ≠ [] := by
    intro h
    rw [h] at hlen
    simp at hlen
  have hfilter := filter_stripped_of_digits X hdig
  have h91s := stripPrefixOnce_of_not_starts _ _ h91
  have h0s := stripPrefixOnce_of_not_starts _ _ h0
  have hplus := stripPrefixOnce_of_not_starts _ _ (not_starts_plus91_of_digits X hne hdig)
  have hb1 : stripPrefixOnce ['+', '9', '1'] (['9', '1'] ++ X) = ['9', '1'] ++ X :=
    stripPrefixOnce_of_not_starts _ _ rfl
  have hz1 : stripPrefixOnce ['+', '9', '1'] (['0'] ++ X) = ['0'] ++ X :=
    stripPrefixOnce_of_not_starts _ _ rfl
  have hz2 : stripPrefixOnce ['9', '1'] (['0'] ++ X) = ['0'] ++ X :=
    stripPrefixOnce_of_not_starts _ _ rfl
  refine ⟨?_, ?_, ?_, ?_⟩
  · simp only [plus91Form, normalizePhone, stripPrefixOnce_append, h91s, h0s, hfilter]
  · simp only [bare91Form, normalizePhone, hb1, stripPrefixOnce_append, h0s, hfilter]
  · simp only [zeroForm, normalizePhone, hz1, hz2, stripPrefixOnce_append, hfilter]
  · simp only [normalizePhone, hplus, h91s, h0s, hfilter]

/-- Witness for claim C1: the amended theorem applied to the concrete
ten-digit number 2247790694 (the number appearing in the source file comments
there). -/
theorem normalizePhone_consistent_forms_witness :
    normalizePhone (plus91Form ['2', '2', '4', '7', '7', '9', '0', '6', '9', '4']) =
        ['2', '2', '4', '7', '7', '9', '0', '6', '9', '4'] ∧
      normalizePhone (bare91Form ['2', '2', '4', '7', '7', '9', '0', '6', '9', '4']) =
        ['2', '2', '4', '7', '7', '9', '0', '6', '9', '4'] ∧
      normalizePhone (zeroForm ['2', '2', '4', '7', '7', '9', '0', '6', '9', '4']) =
        ['2', '2', '4', '7', '7', '9', '0', '6', '9', '4'] ∧
      normalizePhone ['2', '2', '4', '7', '7', '9', '0', '6', '9', '4'] =
        ['2', '2', '4', '7', '7', '9', '0', '6', '9', '4'] :=
  normalizePhone_consistent_forms _ (by decide) (by decide) (by decide) (by decide)

/-- Counterexample to claim C1 as stated: for the ten digits
9123456789 the +91 form and the 91 form normalize differently
(the +91 form loses a further 91 from the digits themselves). -/
theorem normalizePhone_counterexample :
    (['9', '1', '2', '3', '4', '5', '6', '7', '8', '9'] : List Char).length = 10 ∧
      (∀ c ∈ (['9', '1', '2', '3', '4', '5', '6', '7', '8', '9'] : List Char),
        c ∈ digitChars) ∧
      normalizePhone (plus91Form ['9', '1', '2', '3', '4', '5', '6', '7', '8', '9']) ≠
        normalizePhone (bare91Form ['9', '1', '2', '3', '4', '5', '6', '7', '8', '9']) := by
  decide

/- ===================================================================
   Section 2: share codes and agent configs
   Source: packages/shared/src/index.ts (generateShareCode and the zod
   request schemas) and apps/api/src/db.ts (createAgentConfig,
   updateAgentConfig).

   generateShareCode draws ten uniformly random indices into a fixed
   55-character alphabet.  The random draws are modelled by a seed
   function giving, for each position, the drawn index; the JS
   expression Math.floor(Math.random() * chars.length) always lies in
   [0, chars.length), which the model reflects by reducing the seed
   value modulo the alphabet length.

   Database rows are modelled without the created/updated timestamp
   bookkeeping, which no claim mentions.  A TS string-or-null column
   is an Option; the JS truthiness test  !x  on such a column is true
   exactly when the value is null/undefined or the empty string.
   =================================================================== -/

/-- The fixed share-code alphabet from generateShareCode. -/
def shareCodeAlphabet : List Char :=
  "ABCDEFGHJKLMNPQRSTUVWXYZabcdefghjkmnpqrstuvwxyz23456789".toList

/-- generateShareCode from packages/shared/src/index.ts: ten characters
drawn from the alphabet, the draws supplied by the seed. -/
def generateShareCode (seed : Nat → Nat) : List Char :=
  (List.range 10).map (fun i => shareCodeAlphabet.getD (seed i % shareCodeAlphabet.length) 'A')

/-- An agent_configs row, as surfaced by dbAgentToAgentConfig
(share_code null becomes an absent shareCode). -/
structure AgentConfig where
  id : String
  userId : String
  name : String
  instructions : String
  voice : String
  greeting : Option String
  model : String
  sttModel : String
  ttsModel : String
  tools : List String
  isPublic : Bool
  shareCode : Option (List Char)
deriving DecidableEq, Repr

/-- The create-request payload as db.createAgentConfig receives it.
Fields the zod schema defaults are still Option here because
db.createAgentConfig re-applies its own ?? fallbacks. -/
structure CreateAgentConfigRequest where
  name : String
  instructions : String
  voice : Option String
  greeting : Option String
  model : Option String
  sttModel : Option String
  ttsModel : Option String
  tools : Option (List String)
  isPublic : Option Bool
  shareCode : Option String
deriving DecidableEq, Repr

/-- The update-request payload: every field of the create request made
optional (UpdateAgentConfigRequestSchema = CreateAgentConfigRequestSchema.partial()). -/
structure UpdateAgentConfigRequest where
  name : Option String
  instructions : Option String
  voice : Option String
  greeting : Option String
  model : Option String
  sttModel : Option String
  ttsModel : Option String
  tools : Option (List String)
  isPublic : Option Bool
  shareCode : Option String
deriving DecidableEq, Repr

/-- db.createAgentConfig from apps/api/src/db.ts: a share code is
generated exactly when data.isPublic is (truthy) true; the remaining
columns take the request value or the insert-statement fallback.  The
generated row id is supplied by the caller. -/
def createAgentConfig (userId newId : String) (seed : Nat → Nat)
    (data : CreateAgentConfigRequest) : AgentConfig :=
  let shareCode : Option (List Char) :=
    if data.isPublic.getD false then some (generateShareCode seed) else none
  { id := newId
    userId := userId
    name := data.name
    instructions := data.instructions
    voice := data.voice.getD "cgSgspJ2msm6clMCkdW9"
    greeting := data.greeting
    model := data.model.getD "gpt-4.1-mini"
    sttModel := data.sttModel.getD "deepgram/nova-3"
    ttsModel := data.ttsModel.getD "elevenlabs/eleven_turbo_v2_5"
    tools := data.tools.getD []
    isPublic := data.isPublic.getD false
    shareCode := shareCode }

/-- The share-code update rule of db.updateAgentConfig:

      let shareCode = existing.shareCode ?? null;
      if (data.isPublic === true && !existing.shareCode) {
        shareCode = generateShareCode();
      } else if (data.isPublic === false) {
        shareCode = null;
      }

   !existing.shareCode is JS truthiness: true for null/undefined and
   for the empty string. -/
def updatedShareCode (existing : AgentConfig) (seed : Nat → Nat)
    (data : UpdateAgentConfigRequest) : Option (List Char) :=
  if data.isPublic = some true ∧ (existing.shareCode = none ∨ existing.shareCode = some []) then
    some (generateShareCode seed)
  else if data.isPublic = some false then
    none
  else
    existing.shareCode

/-- db.updateAgentConfig from apps/api/src/db.ts, applied to the row it
looked up: each defined request field overwrites the column, and
share_code is always written with the value computed above. -/
def applyUpdate (existing : AgentConfig) (seed : Nat → Nat)
    (data : UpdateAgentConfigRequest) : AgentConfig :=
  { existing with
    name := data.name.getD existing.name
    instructions := data.instructions.getD existing.instructions
    voice := data.voice.getD existing.voice
    greeting := match data.greeting with
      | some g => some g
      | none => existing.greeting
    model := data.model.getD existing.model
    sttModel := data.sttModel.getD existing.sttModel
    ttsModel := data.ttsModel.getD existing.ttsModel
    tools := data.tools.getD existing.tools
    isPublic := data.isPublic.getD existing.isPublic
    shareCode := updatedShareCode existing seed data }

theorem shareCodeAlphabet_length : shareCodeAlphabet.length = 55 := by decide

theorem generateShareCode_length (seed : Nat → Nat) :
    (generateShareCode seed).length = 10 := by
  simp [generateShareCode]

theorem generateShareCode_mem_alphabet (seed : Nat → Nat) :
    ∀ ch ∈ generateShareCode seed, ch ∈ shareCodeAlphabet := by
  intro ch hch
  simp only [generateShareCode, List.mem_map] at hch
  obtain ⟨i, _, hi⟩ := hch
  have hlt : seed i % shareCodeAlphabet.length < shareCodeAlphabet.length := by
    refine Nat.mod_lt _ ?_
    rw [shareCodeAlphabet_length]
    decide
  rw [← hi, List.getD_eq_getElem shareCodeAlphabet 'A' hlt]
  exact List.getElem_mem hlt

/-- Claim C2.  Creating with isPublic=true stores the generated share
code, which is a non-empty 10-character string over the fixed
alphabet; updating with isPublic=false writes a null share code. -/
theorem share_code_created_and_cleared
    (userId newId : String) (seed : Nat → Nat)
    (req : CreateAgentConfigRequest) (existing : AgentConfig)
    (upd : UpdateAgentConfigRequest)
    (hc : req.isPublic = some true) (hu : upd.isPublic = some false) :
    (createAgentConfig userId newId seed req).shareCode = some (generateShareCode seed) ∧
      (generateShareCode seed).length = 10 ∧
      generateShareCode seed ≠ [] ∧
      (∀ ch ∈ generateShareCode seed, ch ∈ shareCodeAlphabet) ∧
      (applyUpdate existing seed upd).shareCode = none := by
  refine ⟨?_, generateShareCode_length seed, ?_, generateShareCode_mem_alphabet seed, ?_⟩
  · simp [createAgentConfig, hc]
  · intro h
    have hlen := generateShareCode_length seed
    rw [h] at hlen
    simp at hlen
  · simp [applyUpdate, updatedShareCode, hu]

/-- A concrete create request with isPublic=true. -/
def c2Req : CreateAgentConfigRequest :=
  { name := "Bot", instructions := "Be helpful", voice := none, greeting := none,
    model := none, sttModel := none, ttsModel := none, tools := none,
    isPublic := some true, shareCode := none }

/-- A concrete stored agent row. -/
def c2Existing : AgentConfig :=
  { id := "agent-1", userId := "user-1", name := "Bot", instructions := "Be helpful",
    voice := "ash", greeting := none, model := "gpt-4.1-mini",
    sttModel := "openai/gpt-4o-transcribe", ttsModel := "openai/gpt-4o-mini-tts",
    tools := [], isPublic := true,
    shareCode := some ['A', 'B', 'C', 'D', 'E', 'F', 'G', 'H', 'J', 'K'] }

/-- A concrete update request setting isPublic to false. -/
def c2Upd : UpdateAgentConfigRequest :=
  { name := none, instructions := none, voice := none, greeting := none,
    model := none, sttModel := none, ttsModel := none, tools := none,
    isPublic := some false, shareCode := none }

/-- Witness for claim C2 at concrete inputs. -/
theorem share_code_created_and_cleared_witness :
    (createAgentConfig "user-1" "agent-1" (fun _ => 0) c2Req).shareCode =
        some (generateShareCode (fun _ => 0)) ∧
      (generateShareCode (fun _ => 0)).length = 10 ∧
      generateShareCode (fun _ => 0) ≠ [] ∧
      (∀ ch ∈ generateShareCode (fun _ => 0), ch ∈ shareCodeAlphabet) ∧
      (applyUpdate c2Existing (fun _ => 0) c2Upd).shareCode = none :=
  share_code_created_and_cleared "user-1" "agent-1" (fun _ => 0) c2Req c2Existing c2Upd
    (by decide) (by decide)

/-- Claim C9, amended.  While sharing is not being disabled, a stored
NON-EMPTY share code is never regenerated or dropped by
updateAgentConfig.  (A stored empty-string share code is non-null but
JS-falsy, so the isPublic===true branch would regenerate it; see the
counterexample.) -/
theorem share_code_stable (existing : AgentConfig) (seed : Nat → Nat)
    (data : UpdateAgentConfigRequest) (c : List Char)
    (hc : existing.shareCode = some c) (hne : c ≠ [])
    (hp : data.isPublic ≠ some false) :
    (applyUpdate existing seed data).shareCode = some c := by
  simp only [applyUpdate, updatedShareCode, hc]
  have h1 : ¬ (data.isPublic = some true ∧
      ((some c : Option (List Char)) = none ∨ some c = some [])) := by
    rintro ⟨-, h | h⟩
    · exact Option.noConfusion h
    · exact hne (Option.some.inj h)
  rw [if_neg h1, if_neg hp]

/-- A stored row whose share code is the empty string: non-null, yet
JS-falsy. -/
def c9Existing : AgentConfig :=
  { c2Existing with shareCode := some [] }

/-- An update request that keeps sharing enabled. -/
def c9Upd : UpdateAgentConfigRequest :=
  { c2Upd with isPublic := some true }

/-- Counterexample to claim C9 as stated: with a non-null (empty
string) stored share code and a request that does not set isPublic to
false, updateAgentConfig regenerates the code, so the stored value
changes. -/
theorem share_code_stable_counterexample :
    c9Existing.shareCode = some [] ∧
      c9Upd.isPublic ≠ some false ∧
      (applyUpdate c9Existing (fun _ => 0) c9Upd).shareCode ≠ c9Existing.shareCode := by
  decide

/-- Witness for claim C9 at concrete inputs: a ten-character stored
code survives an update that sets isPublic to true. -/
theorem share_code_stable_witness :
    (applyUpdate c2Existing (fun _ => 0) c9Upd).shareCode =
      some ['A', 'B', 'C', 'D', 'E', 'F', 'G', 'H', 'J', 'K'] :=
  share_code_stable c2Existing (fun _ => 0) c9Upd
    ['A', 'B', 'C', 'D', 'E', 'F', 'G', 'H', 'J', 'K'] (by decide) (by decide) (by decide)

/- ===================================================================
   Section 3: the database model and the HTTP route handlers
   Source: apps/api/src/db.ts (keyed CRUD over supabase tables) and the
   express route handlers of the API server (apps/api/src/index.ts).
   The three tables the claims touch are modelled as lists of rows; a
   row lookup is find? on the key column, a delete is filter on it.
   Each handler returns the new database state, the HTTP status it
   responds with, and (where a claim needs it) the list of outbound
   vendor calls it performed.
   =================================================================== -/

/-- A telephony_configs row. -/
structure TelephonyConfig where
  id : String
  agentConfigId : String
  phoneNumber : String
  exophoneSid : String
  inboundTrunkId : String
  outboundTrunkId : String
  sipDomain : String
  dispatchRuleId : Option String
  isActive : Bool
deriving DecidableEq, Repr

/-- A knowledge_base_documents row (the columns the delete route reads). -/
structure KnowledgeBaseDocument where
  id : String
  agentConfigId : String
  documentName : String
deriving DecidableEq, Repr

/-- The relational store. -/
structure Db where
  agents : List AgentConfig
  telephony : List TelephonyConfig
  kbDocuments : List KnowledgeBaseDocument
deriving DecidableEq, Repr

def Db.getAgentConfig (d : Db) (id : String) : Option AgentConfig :=
  d.agents.find? (fun a => a.id == id)

def Db.getTelephonyConfigByAgentId (d : Db) (agentConfigId : String) :
    Option TelephonyConfig :=
  d.telephony.find? (fun t => t.agentConfigId == agentConfigId)

def Db.getKnowledgeBaseDocument (d : Db) (docId : String) :
    Option KnowledgeBaseDocument :=
  d.kbDocuments.find? (fun doc => doc.id == docId)

def Db.insertAgentConfig (d : Db) (a : AgentConfig) : Db :=
  { d with agents := a :: d.agents }

def Db.deleteAgentConfig (d : Db) (id : String) : Db :=
  { d with agents := d.agents.filter (fun a => a.id ≠ id) }

def Db.deleteTelephonyConfig (d : Db) (id : String) : Db :=
  { d with telephony := d.telephony.filter (fun t => t.id ≠ id) }

def Db.deleteKnowledgeBaseDocument (d : Db) (docId : String) : Db :=
  { d with kbDocuments := d.kbDocuments.filter (fun doc => doc.id ≠ docId) }

/-- db.updateAgentConfig: look the row up, apply the field updates and
the share-code rule, write the row back.  Returns the updated row as
the route responds with it (null when the id is unknown). -/
def Db.updateAgentConfig (d : Db) (seed : Nat → Nat) (id : String)
    (data : UpdateAgentConfigRequest) : Db × Option AgentConfig :=
  match d.getAgentConfig id with
  | none => (d, none)
  | some existing =>
    let updated := applyUpdate existing seed data
    ({ d with agents := d.agents.map (fun a => if a.id = id then updated else a) },
      some updated)

/-- Rows surviving a filter on a key column are never found under that
key again. -/
theorem find_filter_self_none {α : Type} (key : α → String) (l : List α) (s : String) :
    (l.filter (fun x => key x ≠ s)).find? (fun x => key x == s) = none := by
  induction l with
  | nil => rfl
  | cons x t ih =>
    by_cases h : key x = s
    · simp only [List.filter_cons, h]
      simp [ih]
    · simp only [List.filter_cons, h]
      simp only [decide_not, decide_eq_true_eq, h, not_false_eq_true, ite_true,
        List.find?_cons]
      have hb : (key x == s) = false := by
        simp [h]
      simp [hb, ih]

/-- The pre-validation JSON body of POST /api/agents. -/
structure CreateAgentBody where
  name : Option String
  instructions : Option String
  voice : Option String
  greeting : Option String
  model : Option String
  sttModel : Option String
  ttsModel : Option String
  tools : Option (List String)
  isPublic : Option Bool
  shareCode : Option String
deriving DecidableEq, Repr

/-- The model enum of AgentConfigSchema. -/
def llmModels : List String := ["gpt-4.1-mini", "gpt-4.1", "gpt-4o"]

/-- The sttModel enum of AgentConfigSchema. -/
def sttModels : List String :=
  ["openai/gpt-4o-transcribe", "openai/whisper-1", "deepgram/nova-3",
    "assemblyai/universal-streaming"]

/-- The ttsModel enum of AgentConfigSchema. -/
def ttsModels : List String :=
  ["openai/gpt-4o-mini-tts", "openai/tts-1", "openai/tts-1-hd",
    "elevenlabs/eleven_turbo_v2_5", "elevenlabs/eleven_multilingual_v2",
    "cartesia/sonic-3"]

/-- A zod enum with a default: an absent value parses to the default,
a present value must belong to the enum. -/
def parseEnumWithDefault (given : Option String) (allowed : List String)
    (dflt : String) : Option String :=
  match given with
  | none => some dflt
  | some v => if v ∈ allowed then some v else none

/-- The zod bound min(8).max(16) on an optional shareCode. -/
def shareCodeLenOk : Option String → Bool
  | none => true
  | some sc => 8 ≤ sc.length && sc.length ≤ 16

/-- The validation middleware of POST /api/agents: safeParse of the
request body against CreateAgentConfigRequestSchema.  Parsing fills
the schema defaults (voice "ash", model "gpt-4.1-mini", sttModel
"openai/gpt-4o-transcribe", ttsModel "openai/gpt-4o-mini-tts", tools
[], isPublic false) and enforces the length bounds and enums. -/
def parseCreateAgentBody (b : CreateAgentBody) : Option CreateAgentConfigRequest :=
  match b.name, b.instructions with
  | some n, some ins =>
    if 1 ≤ n.length ∧ n.length ≤ 100 ∧ 1 ≤ ins.length ∧ ins.length ≤ 5000 then
      match parseEnumWithDefault b.model llmModels "gpt-4.1-mini",
          parseEnumWithDefault b.sttModel sttModels "openai/gpt-4o-transcribe",
          parseEnumWithDefault b.ttsModel ttsModels "openai/gpt-4o-mini-tts" with
      | some m, some sm, some tm =>
        if shareCodeLenOk b.shareCode then
          some
            { name := n, instructions := ins,
              voice := some (b.voice.getD "ash"), greeting := b.greeting,
              model := some m, sttModel := some sm, ttsModel := some tm,
              tools := some (b.tools.getD []),
              isPublic := some (b.isPublic.getD false),
              shareCode := b.shareCode }
        else none
      | _, _, _ => none
    else none
  | _, _ => none

/-- POST /api/agents: validate, then insert via db.createAgentConfig
and respond 201 with the created row (400 on validation failure, in
which case nothing is inserted). -/
def postAgentsHandler (dbase : Db) (userId newId : String) (seed : Nat → Nat)
    (body : CreateAgentBody) : Db × Nat × Option AgentConfig :=
  match parseCreateAgentBody body with
  | none => (dbase, 400, none)
  | some req =>
    let agent := createAgentConfig userId newId seed req
    (dbase.insertAgentConfig agent, 201, some agent)

/-- GET /api/agents/:id: 404 when the id is unknown, 403 when the
requester is not the owner, else 200 with the row. -/
def getAgentHandler (dbase : Db) (userId id : String) : Nat × Option AgentConfig :=
  match dbase.getAgentConfig id with
  | none => (404, none)
  | some a => if a.userId ≠ userId then (403, none) else (200, some a)

/-- PUT /api/agents/:id: existence check, ownership check, then
db.updateAgentConfig and 200 with the updated row. -/
def putAgentHandler (dbase : Db) (seed : Nat → Nat) (userId id : String)
    (data : UpdateAgentConfigRequest) : Db × Nat × Option AgentConfig :=
  match dbase.getAgentConfig id with
  | none => (dbase, 404, none)
  | some a =>
    if a.userId ≠ userId then (dbase, 403, none)
    else
      let r := dbase.updateAgentConfig seed id data
      (r.1, 200, r.2)

/-- An outbound SIP control-plane call of the telephony routes, or the
local row deletion, as events of an execution trace. -/
inductive TelephonyEvent where
  | remoteDeleteDispatchRule (id : String) (failed : Bool)
  | remoteDeleteTrunk (id : String) (failed : Bool)
  | localDeleteTelephonyRow (id : String)
deriving DecidableEq, Repr

/-- Whether an event is a call to the remote SIP control plane. -/
def TelephonyEvent.isRemote : TelephonyEvent → Bool
  | .remoteDeleteDispatchRule _ _ => true
  | .remoteDeleteTrunk _ _ => true
  | .localDeleteTelephonyRow _ => false

/-- Which of the two remote deletions fail in a given run. -/
structure TeardownFailures where
  dispatchRuleFails : Bool
  trunkFails : Bool
deriving DecidableEq, Repr

/-- teardownTelephony from apps/api/src/sip-service.ts.  The dispatch
rule is deleted first, then the trunk; each SDK call is guarded by a
JS truthiness test on the stored id and wrapped in its own try/catch
that only logs the error, so the function attempts both deletions and
never propagates an exception — its result is Except.ok in every
failure scenario.  The trace records each attempted remote call and
whether it failed. -/
def teardownTelephony (cfg : TelephonyConfig) (f : TeardownFailures) :
    List TelephonyEvent × Except Unit Unit :=
  let e1 : List TelephonyEvent :=
    match cfg.dispatchRuleId with
    | some rid =>
      if rid = "" then [] else [.remoteDeleteDispatchRule rid f.dispatchRuleFails]
    | none => []
  let e2 : List TelephonyEvent :=
    if cfg.inboundTrunkId = "" then []
    else [.remoteDeleteTrunk cfg.inboundTrunkId f.trunkFails]
  (e1 ++ e2, Except.ok ())

/-- DELETE /api/agents/:id/telephony: existence check, ownership
check, telephony-existence check; then, inside a try block, await
teardownTelephony and only afterwards delete the local row and respond
204 (the catch responds 500 without deleting the row — reachable only
if teardownTelephony itself threw). -/
def deleteTelephonyHandler (dbase : Db) (userId agentId : String)
    (f : TeardownFailures) : Db × Nat × List TelephonyEvent :=
  match dbase.getAgentConfig agentId with
  | none => (dbase, 404, [])
  | some a =>
    if a.userId ≠ userId then (dbase, 403, [])
    else
      match dbase.getTelephonyConfigByAgentId agentId with
      | none => (dbase, 404, [])
      | some t =>
        match teardownTelephony t f with
        | (events, Except.error _) => (dbase, 500, events)
        | (events, Except.ok _) =>
          (dbase.deleteTelephonyConfig t.id, 204,
            events ++ [.localDeleteTelephonyRow t.id])

/-- DELETE /api/agents/:id: existence check, ownership check, then
db.deleteAgentConfig and 204.  The handler body calls nothing else —
in particular it never invokes teardownTelephony — so its remote-call
trace is empty. -/
def deleteAgentHandler (dbase : Db) (userId id : String) :
    Db × Nat × List TelephonyEvent :=
  match dbase.getAgentConfig id with
  | none => (dbase, 404, [])
  | some a =>
    if a.userId ≠ userId then (dbase, 403, [])
    else (dbase.deleteAgentConfig id, 204, [])

/-- A call to the managed document-indexing vendor. -/
inductive VendorAction where
  | removeFromPipeline (pipelineName docId : String)
deriving DecidableEq, Repr

/-- getPipelineName from apps/api/src/knowledge-base.ts. -/
def getPipelineName (agentConfigId : String) : String :=
  "agent-" ++ agentConfigId

/-- deleteDocumentEmbeddings from apps/api/src/knowledge-base.ts: the
body computes the pipeline name and logs; its try block contains only
a console warning that API deletion is not implemented, so no call to
the indexing vendor is issued and no exception escapes.  The returned
trace of vendor calls is therefore empty. -/
def deleteDocumentEmbeddings (_agentConfigId _documentId _fileName : String) :
    List VendorAction :=
  []

/-- DELETE /api/agents/:id/knowledge-base/documents/:docId: existence
check, ownership check, document check (the document must exist and
belong to this agent); then deleteDocumentEmbeddings, deletion of the
local row, and a success response (200). -/
def deleteKbDocumentHandler (dbase : Db) (userId agentConfigId docId : String) :
    Db × Nat × List VendorAction :=
  match dbase.getAgentConfig agentConfigId with
  | none => (dbase, 404, [])
  | some a =>
    if a.userId ≠ userId then (dbase, 403, [])
    else
      match dbase.getKnowledgeBaseDocument docId with
      | none => (dbase, 404, [])
      | some doc =>
        if doc.agentConfigId ≠ agentConfigId then (dbase, 404, [])
        else
          (dbase.deleteKnowledgeBaseDocument docId, 200,
            deleteDocumentEmbeddings agentConfigId docId doc.documentName)

/- ===================================================================
   Section 4: OAuth state tokens
   Source: the Google OAuth routes of the API server.  GET
   /api/oauth/google stores a fresh uuid state in the in-memory map

     oauthStates.set(state, { userId, expiresAt: Date.now() + 10 * 60 * 1000 });

   GET /api/oauth/google/callback validates it:

     if (!code || !state) reject;
     const stateData = oauthStates.get(state);
     if (!stateData || stateData.expiresAt < Date.now()) {
       oauthStates.delete(state); reject;
     }
     oauthStates.delete(state);  // consume, then exchange the code

   The map is modelled as an association list whose get is find? on
   the key and whose set replaces any entry under the same key.
   =================================================================== -/

/-- A value of the in-memory oauthStates map. -/
structure OAuthStateData where
  userId : String
  expiresAt : Int
deriving DecidableEq, Repr

/-- The in-memory oauthStates map. -/
abbrev OAuthStateMap := List (String × OAuthStateData)

/-- oauthStates.get. -/
def lookupOAuthState (states : OAuthStateMap) (s : String) : Option OAuthStateData :=
  (states.find? (fun p => p.1 == s)).map (fun p => p.2)

/-- oauthStates.delete. -/
def deleteOAuthState (states : OAuthStateMap) (s : String) : OAuthStateMap :=
  states.filter (fun p => p.1 ≠ s)

/-- oauthStates.set as done by GET /api/oauth/google: the state expires
ten minutes after issuance. -/
def issueOAuthState (states : OAuthStateMap) (s userId : String) (now : Int) :
    OAuthStateMap :=
  (s, { userId := userId, expiresAt := now + 10 * 60 * 1000 }) :: deleteOAuthState states s

/-- Whether the callback goes on to exchange the authorization code
(carrying the userId recovered from the state), or redirects with an
oauth=error result. -/
inductive CallbackResult where
  | rejected
  | proceed (userId : String)
deriving DecidableEq, Repr

/-- The state-validation part of GET /api/oauth/google/callback,
returning the outcome and the map afterwards.  An absent or empty code
or state is rejected before the map is consulted ( !code || !state );
an unknown or expired state is rejected after deleting its entry; a
valid state is consumed (deleted) and the handler proceeds. -/
def oauthCallbackValidate (states : OAuthStateMap) (code state : Option String)
    (now : Int) : CallbackResult × OAuthStateMap :=
  match code, state with
  | some c, some s =>
    if c = "" ∨ s = "" then (.rejected, states)
    else
      match lookupOAuthState states s with
      | none => (.rejected, deleteOAuthState states s)
      | some d =>
        if d.expiresAt < now then (.rejected, deleteOAuthState states s)
        else (.proceed d.userId, deleteOAuthState states s)
  | _, _ => (.rejected, states)

theorem lookup_delete_none (states : OAuthStateMap) (s : String) :
    lookupOAuthState (deleteOAuthState states s) s = none := by
  simp only [lookupOAuthState, deleteOAuthState,
    find_filter_self_none (fun p => p.1) states s]
  rfl

/-- Claim C3.  The OAuth callback rejects when the state parameter is
absent, unknown to the map (in particular after being consumed by an
earlier callback), or past its expiry; it proceeds to the token
exchange exactly for a present, known, unexpired state, which it
consumes; and a state issued at time t carries expiresAt = t plus ten
minutes, so validation of a freshly issued state succeeds exactly
within those ten minutes. -/
theorem oauth_state_validation
    (states : OAuthStateMap) (c s uid : String) (now now2 : Int)
    (hc : c ≠ "") (hs : s ≠ "") :
    (oauthCallbackValidate states (some c) none now).1 = .rejected ∧
      (lookupOAuthState states s = none →
        (oauthCallbackValidate states (some c) (some s) now).1 = .rejected) ∧
      (∀ d, lookupOAuthState states s = some d → d.expiresAt < now →
        (oauthCallbackValidate states (some c) (some s) now).1 = .rejected) ∧
      (∀ d, lookupOAuthState states s = some d → ¬ d.expiresAt < now →
        (oauthCallbackValidate states (some c) (some s) now).1 = .proceed d.userId ∧
          ∀ now3 : Int,
            (oauthCallbackValidate
              (oauthCallbackValidate states (some c) (some s) now).2
              (some c) (some s) now3).1 = .rejected) ∧
      ((oauthCallbackValidate (issueOAuthState states s uid now) (some c) (some s)
          now2).1 = .proceed uid ↔ now2 ≤ now + 10 * 60 * 1000) := by
  have hcs : ¬ (c = "" ∨ s = "") := by
    rintro (h | h)
    · exact hc h
    · exact hs h
  refine ⟨rfl, ?_, ?_, ?_, ?_⟩
  · intro h
    simp [oauthCallbackValidate, hcs, h]
  · intro d hd hexp
    simp [oauthCallbackValidate, hcs, hd, hexp]
  · intro d hd hexp
    constructor
    · simp [oauthCallbackValidate, hcs, hd, hexp]
    · intro now3
      have h2 : (oauthCallbackValidate states (some c) (some s) now).2 =
          deleteOAuthState states s := by
        simp [oauthCallbackValidate, hcs, hd, hexp]
      rw [h2]
      simp [oauthCallbackValidate, hcs, lookup_delete_none]
  · have hl : lookupOAuthState (issueOAuthState states s uid now) s =
        some { userId := uid, expiresAt := now + 10 * 60 * 1000 } := by
      simp [lookupOAuthState, issueOAuthState, List.find?]
    by_cases hlt : now + 600000 < now2
    · have : (oauthCallbackValidate (issueOAuthState states s uid now) (some c) (some s)
          now2).1 = .rejected := by
        simp [oauthCallbackValidate, hcs, hl, hlt]
      rw [this]
      constructor
      · intro h
        exact absurd h (by simp)
      · intro h
        omega
    · have : (oauthCallbackValidate (issueOAuthState states s uid now) (some c) (some s)
          now2).1 = .proceed uid := by
        simp [oauthCallbackValidate, hcs, hl, hlt]
      rw [this]
      constructor
      · intro _
        omega
      · intro _
        rfl

/-- A concrete state map with one entry expiring at time 600000. -/
def c3States : OAuthStateMap :=
  [("state-1", { userId := "user-1", expiresAt := 600000 })]

/-- Witness for claim C3 at concrete inputs: a known unexpired state
proceeds and is consumed; an unknown state is rejected; a freshly
issued state validates within ten minutes. -/
theorem oauth_state_validation_witness :
    (oauthCallbackValidate c3States (some "auth-code") (some "state-1") 600000).1 =
        .proceed "user-1" ∧
      (oauthCallbackValidate c3States (some "auth-code") (some "state-2") 600000).1 =
        .rejected ∧
      (oauthCallbackValidate (issueOAuthState c3States "state-2" "user-2" 0)
          (some "auth-code") (some "state-2") 600000).1 = .proceed "user-2" := by
  have h := oauth_state_validation c3States "auth-code" "state-1" "user-2" 600000 600000
    (by decide) (by decide)
  have h2 := oauth_state_validation c3States "auth-code" "state-2" "user-2" 0 600000
    (by decide) (by decide)
  refine ⟨?_, ?_, ?_⟩
  · exact (h.2.2.2.1 { userId := "user-1", expiresAt := 600000 } (by decide)
      (by decide)).1
  · exact h2.2.1 (by decide)
  · exact h2.2.2.2.2.mpr (by decide)

/- ===================================================================
   Section 5: STT/TTS provider selection at voice-session start
   Source: apps/agent/src/agent.ts, the entry function.  The stored
   model identifiers have the shape provider/model.  The code tests
   config.ttsModel.startsWith("openai/") (and likewise for sttModel);
   on that branch it strips the prefix with replace("openai/", "")
   (equal to dropping the 7 leading characters, since the string
   starts with the pattern) and builds an openai.TTS / openai.STT
   provider object; on every other branch it logs a "not supported"
   warning and falls back to a default openai provider.  No other
   provider constructor appears in the file.
   =================================================================== -/

/-- The TTS provider object the session is assembled with.  Every
branch of the source constructs openai.TTS; the model, voice and
optional instructions parameters distinguish them. -/
inductive TTSSelection where
  | openaiTTS (model voice : String) (instructions : Option String)
deriving DecidableEq, Repr

/-- The STT provider object: a bare openai.STT, or one wrapped in a
stt.StreamAdapter with the preloaded VAD. -/
inductive STTSelection where
  | openaiSTT (model : String)
  | streamAdapter (model : String)
deriving DecidableEq, Repr

/-- JS String.prototype.startsWith. -/
def jsStartsWith (s p : String) : Bool := startsWithChars p.toList s.toList

/-- Dropping the first occurrence of openai/ from a string known to start with it:
drop the 7 leading characters. -/
def stripOpenAI (s : String) : String := String.mk (s.toList.drop 7)

/-- The fallback TTS instructions string of agent.ts. -/
def defaultVoiceInstructions : String := "Speak in a natural, conversational tone."

/-- JS x || d for string x: d when x is undefined or empty. -/
def jsOrDefault (o : Option String) (d : String) : String :=
  match o with
  | some v => if v = "" then d else v
  | none => d

/-- The expression legacyVoiceMap[voice] with fallback alloy from agent.ts (the map sends each
legacy voice name to itself). -/
def legacyVoiceMap (v : String) : String :=
  if v = "alloy" ∨ v = "echo" ∨ v = "fable" ∨ v = "onyx" ∨ v = "nova" ∨ v = "shimmer"
  then v else "alloy"

/-- The expression newVoiceMap[voice] with fallback ash from agent.ts. -/
def newVoiceMap (v : String) : String :=
  if v = "ash" ∨ v = "ballad" ∨ v = "coral" ∨ v = "sage" ∨ v = "verse"
  then v else "ash"

/-- The TTS provider selection of agent.ts: prefix dispatch on
openai/; within it, the legacy models keep their name and use the
legacy voice map, gpt-4o-mini-tts uses the new voice map and the
instructions parameter, anything else warns and defaults; any model
not starting with openai/ warns and defaults to openai
gpt-4o-mini-tts with voice ash. -/
def selectTTSProvider (ttsModel voice : String) (voiceInstructions : Option String) :
    TTSSelection :=
  if jsStartsWith ttsModel "openai/" then
    let modelName := stripOpenAI ttsModel
    if modelName = "tts-1" ∨ modelName = "tts-1-hd" then
      .openaiTTS modelName (legacyVoiceMap voice) none
    else if modelName = "gpt-4o-mini-tts" then
      .openaiTTS "gpt-4o-mini-tts" (newVoiceMap voice)
        (some (jsOrDefault voiceInstructions defaultVoiceInstructions))
    else
      .openaiTTS "gpt-4o-mini-tts" "ash" (some defaultVoiceInstructions)
  else
    .openaiTTS "gpt-4o-mini-tts" "ash" (some defaultVoiceInstructions)

/-- The STT provider selection of agent.ts: prefix dispatch on
openai/; gpt-4o-transcribe is wrapped in a StreamAdapter only for
telephony calls, every other openai model is always wrapped; any model
not starting with openai/ warns and defaults to bare openai
gpt-4o-transcribe. -/
def selectSTTProvider (sttModel : String) (isTelephonyCall : Bool) : STTSelection :=
  if jsStartsWith sttModel "openai/" then
    let modelName := stripOpenAI sttModel
    if modelName = "gpt-4o-transcribe" then
      if isTelephonyCall then .streamAdapter "gpt-4o-transcribe"
      else .openaiSTT "gpt-4o-transcribe"
    else .streamAdapter modelName
  else .openaiSTT "gpt-4o-transcribe"

/-- Claim C7, amended.  The assembly code does dispatch on the string
prefix before the slash, but the only distinguished prefix is
openai/: an openai/... model yields the OpenAI provider configured
with that model, while every model with any other prefix — including
elevenlabs/... — falls back to the default OpenAI provider
(gpt-4o-mini-tts for TTS, gpt-4o-transcribe for STT) instead of a
provider of its own vendor. -/
theorem provider_dispatch_openai_only (m v : String) (vi : Option String) (tele : Bool)
    (h : jsStartsWith m "openai/" = false) :
    selectTTSProvider m v vi =
        .openaiTTS "gpt-4o-mini-tts" "ash" (some defaultVoiceInstructions) ∧
      selectSTTProvider m tele = .openaiSTT "gpt-4o-transcribe" ∧
      selectTTSProvider "openai/tts-1" "alloy" none = .openaiTTS "tts-1" "alloy" none ∧
      selectTTSProvider "openai/gpt-4o-mini-tts" "coral" none =
        .openaiTTS "gpt-4o-mini-tts" "coral" (some defaultVoiceInstructions) ∧
      selectSTTProvider "openai/whisper-1" false = .streamAdapter "whisper-1" ∧
      selectSTTProvider "openai/gpt-4o-transcribe" true =
        .streamAdapter "gpt-4o-transcribe" := by
  refine ⟨?_, ?_, ?_, ?_, ?_, ?_⟩
  · simp [selectTTSProvider, h]
  · simp [selectSTTProvider, h]
  · decide
  · decide
  · decide
  · decide

/-- Witness for claim C7: the amended theorem applied to the
elevenlabs TTS model stored by default for created agents. -/
theorem provider_dispatch_openai_only_witness :
    selectTTSProvider "elevenlabs/eleven_turbo_v2_5" "cgSgspJ2msm6clMCkdW9" none =
        .openaiTTS "gpt-4o-mini-tts" "ash" (some defaultVoiceInstructions) ∧
      selectSTTProvider "elevenlabs/eleven_turbo_v2_5" false =
        .openaiSTT "gpt-4o-transcribe" ∧
      selectTTSProvider "openai/tts-1" "alloy" none = .openaiTTS "tts-1" "alloy" none ∧
      selectTTSProvider "openai/gpt-4o-mini-tts" "coral" none =
        .openaiTTS "gpt-4o-mini-tts" "coral" (some defaultVoiceInstructions) ∧
      selectSTTProvider "openai/whisper-1" false = .streamAdapter "whisper-1" ∧
      selectSTTProvider "openai/gpt-4o-transcribe" true =
        .streamAdapter "gpt-4o-transcribe" :=
  provider_dispatch_openai_only "elevenlabs/eleven_turbo_v2_5" "cgSgspJ2msm6clMCkdW9"
    none false (by decide)

/-- Counterexample to claim C7 as stated: an elevenlabs/... model does
not yield an ElevenLabs provider — it yields the default OpenAI
provider, identical to what an unrelated cartesia/... model yields, so
the dispatch does not distinguish these providers. -/
theorem provider_dispatch_counterexample :
    selectTTSProvider "elevenlabs/eleven_turbo_v2_5" "cgSgspJ2msm6clMCkdW9" none =
        .openaiTTS "gpt-4o-mini-tts" "ash" (some defaultVoiceInstructions) ∧
      selectTTSProvider "elevenlabs/eleven_turbo_v2_5" "cgSgspJ2msm6clMCkdW9" none =
        selectTTSProvider "cartesia/sonic-3" "cgSgspJ2msm6clMCkdW9" none ∧
      selectSTTProvider "deepgram/nova-3" false = .openaiSTT "gpt-4o-transcribe" := by
  decide

/- ===================================================================
   Section 6: theorems on the route handlers (claims C4, C5, C6, C8,
   C10) and their concrete fixtures.
   =================================================================== -/

theorem teardown_events_remote (t : TelephonyConfig) (f : TeardownFailures) :
    ∀ e ∈ (teardownTelephony t f).1, e.isRemote = true := by
  intro e he
  simp only [teardownTelephony, List.mem_append] at he
  rcases he with h | h
  · revert h
    cases t.dispatchRuleId with
    | none =>
      intro h
      simp at h
    | some rid =>
      intro h
      by_cases hr : rid = ""
      · simp [hr] at h
      · simp [hr] at h
        subst h
        rfl
  · by_cases ht : t.inboundTrunkId = ""
    · simp [ht] at h
    · simp [ht] at h
      subst h
      rfl

/-- Claim C4.  When the existence and ownership checks pass, the
telephony delete handler runs the full remote teardown first and the
local row deletion strictly afterwards, responding 204; because every
remote deletion inside teardownTelephony is caught, teardown returns
normally in every failure scenario f, so the local deletion is
executed even when remote calls fail, and every event preceding the
local deletion is a remote call. -/
theorem delete_telephony_teardown_then_local
    (dbase : Db) (userId agentId : String) (f : TeardownFailures)
    (a : AgentConfig) (t : TelephonyConfig)
    (hA : dbase.getAgentConfig agentId = some a)
    (hOwn : a.userId = userId)
    (hT : dbase.getTelephonyConfigByAgentId agentId = some t) :
    deleteTelephonyHandler dbase userId agentId f =
        (dbase.deleteTelephonyConfig t.id, 204,
          (teardownTelephony t f).1 ++ [.localDeleteTelephonyRow t.id]) ∧
      (teardownTelephony t f).2 = Except.ok () ∧
      (∀ e ∈ (teardownTelephony t f).1, e.isRemote = true) := by
  refine ⟨?_, rfl, teardown_events_remote t f⟩
  simp [deleteTelephonyHandler, hA, hOwn, hT, teardownTelephony]

/-- The stored agent row of the concrete fixtures. -/
def sampleAgent : AgentConfig :=
  { id := "agent-1", userId := "user-1", name := "Bot", instructions := "Be helpful",
    voice := "ash", greeting := none, model := "gpt-4.1-mini",
    sttModel := "openai/gpt-4o-transcribe", ttsModel := "openai/gpt-4o-mini-tts",
    tools := [], isPublic := false, shareCode := none }

/-- The stored telephony row of the concrete fixtures. -/
def sampleTelephony : TelephonyConfig :=
  { id := "tel-1", agentConfigId := "agent-1", phoneNumber := "+912247790694",
    exophoneSid := "sid-1", inboundTrunkId := "trunk-1", outboundTrunkId := "trunk-2",
    sipDomain := "proj.sip.livekit.cloud", dispatchRuleId := some "rule-1",
    isActive := true }

/-- The stored knowledge-base document row of the concrete fixtures. -/
def sampleKbDoc : KnowledgeBaseDocument :=
  { id := "doc-1", agentConfigId := "agent-1", documentName := "guide.pdf" }

/-- The concrete database of the fixtures. -/
def sampleDb : Db :=
  { agents := [sampleAgent], telephony := [sampleTelephony], kbDocuments := [sampleKbDoc] }

/-- Witness for claim C4 at concrete inputs, in the scenario where
both remote deletions fail: the handler still deletes the local row
and responds 204, after attempting both remote calls. -/
theorem delete_telephony_teardown_then_local_witness :
    deleteTelephonyHandler sampleDb "user-1" "agent-1" ⟨true, true⟩ =
        (sampleDb.deleteTelephonyConfig "tel-1", 204,
          (teardownTelephony sampleTelephony ⟨true, true⟩).1 ++
            [.localDeleteTelephonyRow "tel-1"]) ∧
      (teardownTelephony sampleTelephony ⟨true, true⟩).2 = Except.ok () ∧
      (∀ e ∈ (teardownTelephony sampleTelephony ⟨true, true⟩).1, e.isRemote = true) :=
  delete_telephony_teardown_then_local sampleDb "user-1" "agent-1" ⟨true, true⟩
    sampleAgent sampleTelephony rfl rfl rfl

/-- Claim C5.  When the ownership and document checks pass, the
knowledge-base document delete handler issues no call at all to the
indexing vendor (deleteDocumentEmbeddings only logs), yet deletes the
local row — which is afterwards no longer found — and responds with
success. -/
theorem kb_delete_no_vendor_call
    (dbase : Db) (userId agentConfigId docId : String)
    (a : AgentConfig) (doc : KnowledgeBaseDocument)
    (hA : dbase.getAgentConfig agentConfigId = some a)
    (hOwn : a.userId = userId)
    (hD : dbase.getKnowledgeBaseDocument docId = some doc)
    (hDoc : doc.agentConfigId = agentConfigId) :
    deleteKbDocumentHandler dbase userId agentConfigId docId =
        (dbase.deleteKnowledgeBaseDocument docId, 200, []) ∧
      deleteDocumentEmbeddings agentConfigId docId doc.documentName = [] ∧
      (dbase.deleteKnowledgeBaseDocument docId).getKnowledgeBaseDocument docId = none := by
  refine ⟨?_, rfl, ?_⟩
  · simp [deleteKbDocumentHandler, hA, hOwn, hD, hDoc, deleteDocumentEmbeddings]
  · simp only [Db.deleteKnowledgeBaseDocument, Db.getKnowledgeBaseDocument]
    exact find_filter_self_none (fun x => x.id) dbase.kbDocuments docId

/-- Witness for claim C5 at concrete inputs. -/
theorem kb_delete_no_vendor_call_witness :
    deleteKbDocumentHandler sampleDb "user-1" "agent-1" "doc-1" =
        (sampleDb.deleteKnowledgeBaseDocument "doc-1", 200, []) ∧
      deleteDocumentEmbeddings "agent-1" "doc-1" "guide.pdf" = [] ∧
      (sampleDb.deleteKnowledgeBaseDocument "doc-1").getKnowledgeBaseDocument "doc-1" =
        none :=
  kb_delete_no_vendor_call sampleDb "user-1" "agent-1" "doc-1" sampleAgent sampleKbDoc
    rfl rfl rfl rfl

/-- Claim C6.  For the authenticated read, update and delete of an
AgentConfig and the delete of the TelephonyConfig of an agent: an unknown
agent id yields 404 with no change to the store and no vendor call; an
existing agent owned by a different user yields 403 likewise; and only
the owner reaches the operation itself — the read returns the row, the
update writes exactly the updated row, the delete removes the row, and
the telephony delete with no telephony row yields 404 unchanged. -/
theorem crud_ownership_checks
    (dbase : Db) (seed : Nat → Nat) (userId id : String)
    (data : UpdateAgentConfigRequest) (f : TeardownFailures) :
    (dbase.getAgentConfig id = none →
        getAgentHandler dbase userId id = (404, none) ∧
        putAgentHandler dbase seed userId id data = (dbase, 404, none) ∧
        deleteAgentHandler dbase userId id = (dbase, 404, []) ∧
        deleteTelephonyHandler dbase userId id f = (dbase, 404, [])) ∧
      (∀ a, dbase.getAgentConfig id = some a → a.userId ≠ userId →
        getAgentHandler dbase userId id = (403, none) ∧
        putAgentHandler dbase seed userId id data = (dbase, 403, none) ∧
        deleteAgentHandler dbase userId id = (dbase, 403, []) ∧
        deleteTelephonyHandler dbase userId id f = (dbase, 403, [])) ∧
      (∀ a, dbase.getAgentConfig id = some a → a.userId = userId →
        getAgentHandler dbase userId id = (200, some a) ∧
        putAgentHandler dbase seed userId id data =
          ({ dbase with agents :=
              dbase.agents.map (fun x => if x.id = id then applyUpdate a seed data else x) },
            200, some (applyUpdate a seed data)) ∧
        deleteAgentHandler dbase userId id = (dbase.deleteAgentConfig id, 204, []) ∧
        (dbase.getTelephonyConfigByAgentId id = none →
          deleteTelephonyHandler dbase userId id f = (dbase, 404, []))) := by
  refine ⟨?_, ?_, ?_⟩
  · intro h
    refine ⟨?_, ?_, ?_, ?_⟩
    · simp [getAgentHandler, h]
    · simp [putAgentHandler, h]
    · simp [deleteAgentHandler, h]
    · simp [deleteTelephonyHandler, h]
  · intro a hA hOwn
    refine ⟨?_, ?_, ?_, ?_⟩
    · simp [getAgentHandler, hA, hOwn]
    · simp [putAgentHandler, hA, hOwn]
    · simp [deleteAgentHandler, hA, hOwn]
    · simp [deleteTelephonyHandler, hA, hOwn]
  · intro a hA hOwn
    refine ⟨?_, ?_, ?_, ?_⟩
    · simp [getAgentHandler, hA, hOwn]
    · simp [putAgentHandler, Db.updateAgentConfig, hA, hOwn]
    · simp [deleteAgentHandler, hA, hOwn]
    · intro hT
      simp [deleteTelephonyHandler, hA, hOwn, hT]

/-- Witness for claim C6 at concrete inputs: a non-owner gets 403 with
the store unchanged, the owner reads the row, and an unknown id gets
404 with the store unchanged. -/
theorem crud_ownership_checks_witness :
    getAgentHandler sampleDb "user-2" "agent-1" = (403, none) ∧
      deleteAgentHandler sampleDb "user-2" "agent-1" = (sampleDb, 403, []) ∧
      getAgentHandler sampleDb "user-1" "agent-1" = (200, some sampleAgent) ∧
      deleteAgentHandler sampleDb "user-1" "missing" = (sampleDb, 404, []) := by
  have h2 := crud_ownership_checks sampleDb (fun _ => 0) "user-2" "agent-1" c2Upd
    ⟨false, false⟩
  have h1 := crud_ownership_checks sampleDb (fun _ => 0) "user-1" "agent-1" c2Upd
    ⟨false, false⟩
  have h404 := crud_ownership_checks sampleDb (fun _ => 0) "user-1" "missing" c2Upd
    ⟨false, false⟩
  exact ⟨(h2.2.1 sampleAgent rfl (by decide)).1,
    (h2.2.1 sampleAgent rfl (by decide)).2.2.1,
    (h1.2.2 sampleAgent rfl rfl).1,
    (h404.1 rfl).2.2.1⟩

/-- The JSON body of the claim C8 scenario. -/
def c8Body : CreateAgentBody :=
  { name := some "Bot", instructions := some "Be helpful", voice := none,
    greeting := none, model := none, sttModel := none, ttsModel := none,
    tools := none, isPublic := none, shareCode := none }

/-- The row the claim C8 scenario creates: the generated id with every
defaulted column. -/
def c8ExpectedAgent (userId newId : String) : AgentConfig :=
  { id := newId, userId := userId, name := "Bot", instructions := "Be helpful",
    voice := "ash", greeting := none, model := "gpt-4.1-mini",
    sttModel := "openai/gpt-4o-transcribe", ttsModel := "openai/gpt-4o-mini-tts",
    tools := [], isPublic := false, shareCode := none }

/-- Claim C8.  POST /api/agents with body name Bot and instructions
Be helpful succeeds with 201 and a body carrying the generated id, the
schema defaults for voice, model, sttModel and ttsModel, tools
defaulted to the empty list, isPublic false, and no share code
stored. -/
theorem post_agents_example (dbase : Db) (userId newId : String) (seed : Nat → Nat) :
    postAgentsHandler dbase userId newId seed c8Body =
        (dbase.insertAgentConfig (c8ExpectedAgent userId newId), 201,
          some (c8ExpectedAgent userId newId)) ∧
      (c8ExpectedAgent userId newId).isPublic = false ∧
      (c8ExpectedAgent userId newId).shareCode = none ∧
      (c8ExpectedAgent userId newId).tools = [] :=
  ⟨rfl, rfl, rfl, rfl⟩

/-- Claim C10.  A successful owner DELETE /api/agents/:id of an agent
that has a telephony row removes only the agent record: it makes no
remote SIP call and never reaches teardownTelephony, and both the
telephony table (including the row of that agent) and the knowledge-base
table are untouched. -/
theorem delete_agent_frame
    (dbase : Db) (userId id : String)
    (a : AgentConfig) (t : TelephonyConfig)
    (hA : dbase.getAgentConfig id = some a)
    (hOwn : a.userId = userId)
    (hT : dbase.getTelephonyConfigByAgentId id = some t) :
    deleteAgentHandler dbase userId id = (dbase.deleteAgentConfig id, 204, []) ∧
      ((deleteAgentHandler dbase userId id).1).telephony = dbase.telephony ∧
      ((deleteAgentHandler dbase userId id).1).kbDocuments = dbase.kbDocuments ∧
      ((deleteAgentHandler dbase userId id).1).getTelephonyConfigByAgentId id = some t := by
  have hmain : deleteAgentHandler dbase userId id = (dbase.deleteAgentConfig id, 204, []) := by
    simp [deleteAgentHandler, hA, hOwn]
  refine ⟨hmain, ?_, ?_, ?_⟩
  · rw [hmain]
    rfl
  · rw [hmain]
    rfl
  · rw [hmain]
    simpa [Db.getTelephonyConfigByAgentId, Db.deleteAgentConfig] using hT

/-- Witness for claim C10 at concrete inputs. -/
theorem delete_agent_frame_witness :
    deleteAgentHandler sampleDb "user-1" "agent-1" =
        (sampleDb.deleteAgentConfig "agent-1", 204, []) ∧
      ((deleteAgentHandler sampleDb "user-1" "agent-1").1).telephony =
        sampleDb.telephony ∧
      ((deleteAgentHandler sampleDb "user-1" "agent-1").1).kbDocuments =
        sampleDb.kbDocuments ∧
      ((deleteAgentHandler sampleDb "user-1" "agent-1").1).getTelephonyConfigByAgentId
        "agent-1" = some sampleTelephony :=
  delete_agent_frame sampleDb "user-1" "agent-1" sampleAgent sampleTelephony rfl rfl rfl
